import Mathlib

/-!
Shallow embedding of the EventOracle contract
(src/projects/event-oracle/smart_contracts/event_oracle/contract.py).

Modelling conventions:
* Algorand addresses are abstracted to `Nat`; the composite byte-string box
  keys (app id ++ event id [++ address / round]) are injective concatenations
  of fixed-width fields, so they are modelled as record keys.
* The four `BoxMap`s become total functions `key → Option value`.
* `Txn.sender`, `Global.latest_timestamp` and
  `Global.current_application_address` become an explicit call context `Ctx`.
* Each ABI method is a function `State → State × Except Err α`; a failed
  `assert` aborts with the untouched state (in the source every assert
  precedes every box write, and the ledger rolls back on abort anyway).
* TEAL uint64 arithmetic: stake amounts are genuine microAlgo transfers, so
  the additions of held stake cannot exceed 2^64 (bounded by the total Algo
  supply) and are modelled as `Nat` addition; the subtraction in the vote
  merge branch panics on underflow on chain, so it is modelled explicitly
  with an `Err.underflow` abort at the same program point, and the reward
  arithmetic of `claim_rewards` (the product `user_stake *
  total_losing_stake` and the sum `user_stake + reward_share`, which are
  not bounded by the supply) panics on overflow, modelled as `Err.overflow`
  aborts at the same program points.
* The outgoing `itxn.Payment` of `claim_rewards` is logged in
  `payments_out`.
-/

namespace EventOracle

abbrev Addr := Nat

structure Payment where
  amount : Nat
  receiver : Addr
deriving DecidableEq, Repr

structure Ctx where
  sender : Addr
  now : Nat
  appAddr : Addr
deriving DecidableEq, Repr

/-- Composite key of `self.oracle_events`: app id ++ event id. -/
structure EvKey where
  appId : Nat
  eventId : Nat
deriving DecidableEq, Repr

/-- Composite key of `self.votes` and `self.user_stakes`:
app id ++ event id ++ address. -/
structure UserKey where
  appId : Nat
  eventId : Nat
  user : Addr
deriving DecidableEq, Repr

/-- Composite key of `self.disputes`: app id ++ event id ++ round. -/
structure DisputeKey where
  appId : Nat
  eventId : Nat
  round : Nat
deriving DecidableEq, Repr

/-- `OracleEventStruct` of the source, field for field. -/
structure OracleEventStruct where
  responsive_donation_app_id : Nat
  event_id : Nat
  initial_proposal : Bool
  proposer_address : Addr
  proposal_stake : Nat
  dispute_deadline : Nat
  voting_deadline : Nat
  total_stake_yes : Nat
  total_stake_no : Nat
  resolved : Bool
  final_outcome : Bool
  dispute_count : Nat
deriving DecidableEq, Repr

/-- `VoteStruct` of the source, field for field. -/
structure VoteStruct where
  responsive_donation_app_id : Nat
  event_id : Nat
  voter_address : Addr
  vote_outcome : Bool
  stake_amount : Nat
  vote_timestamp : Nat
deriving DecidableEq, Repr

/-- `DisputeStruct` of the source, field for field. -/
structure DisputeStruct where
  responsive_donation_app_id : Nat
  event_id : Nat
  disputer_address : Addr
  dispute_stake : Nat
  dispute_outcome : Bool
  dispute_timestamp : Nat
  dispute_round : Nat
deriving DecidableEq, Repr

/-- One constructor per distinct assert message of the contract, plus the
uint64 subtraction and overflow panics. -/
inductive Err where
  | insufficientStake
  | wrongReceiver
  | alreadyExists
  | eventNotFound
  | disputePeriodEnded
  | alreadyResolved
  | disputeStakeTooLow
  | votingNotStarted
  | votingEnded
  | noDisputes
  | minVoteStake
  | underflow
  | overflow
  | votingPeriodNotEnded
  | notResolved
  | noStakesFound
  | noStakesToClaim
  | notWinner
deriving DecidableEq, Repr

/-- The contract's four box maps plus the log of outgoing payments. -/
structure State where
  oracle_events : EvKey → Option OracleEventStruct
  votes : UserKey → Option VoteStruct
  disputes : DisputeKey → Option DisputeStruct
  user_stakes : UserKey → Option Nat
  payments_out : List (Addr × Nat)

def upd {K V : Type} [DecidableEq K] (m : K → Option V) (k : K) (v : V) :
    K → Option V :=
  fun k2 => if k2 = k then some v else m k2

def rem {K V : Type} [DecidableEq K] (m : K → Option V) (k : K) :
    K → Option V :=
  fun k2 => if k2 = k then none else m k2

def initialState : State :=
  { oracle_events := fun _ => none
    votes := fun _ => none
    disputes := fun _ => none
    user_stakes := fun _ => none
    payments_out := [] }

/-- `EventOracle.propose_outcome` (contract.py lines 171-231). -/
def propose_outcome (ctx : Ctx) (appId eventId : Nat) (proposed_outcome : Bool)
    (payment : Payment) (s : State) : State × Except Err Bool :=
  if payment.amount < 10000000 then (s, Except.error Err.insufficientStake)
  else if payment.receiver ≠ ctx.appAddr then (s, Except.error Err.wrongReceiver)
  else if (s.oracle_events ⟨appId, eventId⟩).isSome then
    (s, Except.error Err.alreadyExists)
  else
    let ev : OracleEventStruct :=
      { responsive_donation_app_id := appId
        event_id := eventId
        initial_proposal := proposed_outcome
        proposer_address := ctx.sender
        proposal_stake := payment.amount
        dispute_deadline := ctx.now + 86400
        voting_deadline := ctx.now + 259200
        total_stake_yes := if proposed_outcome then payment.amount else 0
        total_stake_no := if proposed_outcome then 0 else payment.amount
        resolved := false
        final_outcome := false
        dispute_count := 0 }
    ({ s with
        oracle_events := upd s.oracle_events ⟨appId, eventId⟩ ev
        user_stakes :=
          upd s.user_stakes ⟨appId, eventId, ctx.sender⟩ payment.amount },
     Except.ok true)

/-- `EventOracle.raise_dispute` (contract.py lines 233-302). -/
def raise_dispute (ctx : Ctx) (appId eventId : Nat) (dispute_outcome : Bool)
    (payment : Payment) (s : State) : State × Except Err Nat :=
  match s.oracle_events ⟨appId, eventId⟩ with
  | none => (s, Except.error Err.eventNotFound)
  | some ev =>
    if ¬ (ctx.now ≤ ev.dispute_deadline) then
      (s, Except.error Err.disputePeriodEnded)
    else if ev.resolved then (s, Except.error Err.alreadyResolved)
    else if payment.amount < ev.proposal_stake * 2 then
      (s, Except.error Err.disputeStakeTooLow)
    else if payment.receiver ≠ ctx.appAddr then
      (s, Except.error Err.wrongReceiver)
    else
      let round := ev.dispute_count + 1
      let d : DisputeStruct :=
        { responsive_donation_app_id := appId
          event_id := eventId
          disputer_address := ctx.sender
          dispute_stake := payment.amount
          dispute_outcome := dispute_outcome
          dispute_timestamp := ctx.now
          dispute_round := round }
      let ev2 : OracleEventStruct :=
        if dispute_outcome then
          { ev with
              dispute_count := round
              total_stake_yes := ev.total_stake_yes + payment.amount }
        else
          { ev with
              dispute_count := round
              total_stake_no := ev.total_stake_no + payment.amount }
      let cur := (s.user_stakes ⟨appId, eventId, ctx.sender⟩).getD 0
      ({ s with
          disputes := upd s.disputes ⟨appId, eventId, round⟩ d
          oracle_events := upd s.oracle_events ⟨appId, eventId⟩ ev2
          user_stakes :=
            upd s.user_stakes ⟨appId, eventId, ctx.sender⟩
              (cur + payment.amount) },
       Except.ok round)

/-- `EventOracle.vote` (contract.py lines 304-394).  The merge branch first
subtracts the existing vote's full stake from its previous side (a uint64
subtraction that panics on underflow, modelled as `Err.underflow`), then
overwrites the vote record with cumulative stake, and finally adds only the
new payment amount to the newly chosen side. -/
def vote (ctx : Ctx) (appId eventId : Nat) (vote_outcome : Bool)
    (payment : Payment) (s : State) : State × Except Err Bool :=
  match s.oracle_events ⟨appId, eventId⟩ with
  | none => (s, Except.error Err.eventNotFound)
  | some ev =>
    if ¬ (ev.dispute_deadline < ctx.now) then
      (s, Except.error Err.votingNotStarted)
    else if ¬ (ctx.now ≤ ev.voting_deadline) then
      (s, Except.error Err.votingEnded)
    else if ev.resolved then (s, Except.error Err.alreadyResolved)
    else if ¬ (0 < ev.dispute_count) then (s, Except.error Err.noDisputes)
    else if payment.amount < 1000000 then (s, Except.error Err.minVoteStake)
    else if payment.receiver ≠ ctx.appAddr then
      (s, Except.error Err.wrongReceiver)
    else
      let vk : UserKey := ⟨appId, eventId, ctx.sender⟩
      match s.votes vk with
      | some existing_vote =>
        if (if existing_vote.vote_outcome then ev.total_stake_yes
            else ev.total_stake_no) < existing_vote.stake_amount then
          (s, Except.error Err.underflow)
        else
          let ev1 : OracleEventStruct :=
            if existing_vote.vote_outcome then
              { ev with total_stake_yes :=
                  ev.total_stake_yes - existing_vote.stake_amount }
            else
              { ev with total_stake_no :=
                  ev.total_stake_no - existing_vote.stake_amount }
          let newVote : VoteStruct :=
            { existing_vote with
                vote_outcome := vote_outcome
                stake_amount := existing_vote.stake_amount + payment.amount
                vote_timestamp := ctx.now }
          let cur := (s.user_stakes vk).getD 0
          let ev2 : OracleEventStruct :=
            if vote_outcome then
              { ev1 with total_stake_yes := ev1.total_stake_yes + payment.amount }
            else
              { ev1 with total_stake_no := ev1.total_stake_no + payment.amount }
          ({ s with
              votes := upd s.votes vk newVote
              user_stakes := upd s.user_stakes vk (cur + payment.amount)
              oracle_events := upd s.oracle_events ⟨appId, eventId⟩ ev2 },
           Except.ok true)
      | none =>
        let newVote : VoteStruct :=
          { responsive_donation_app_id := appId
            event_id := eventId
            voter_address := ctx.sender
            vote_outcome := vote_outcome
            stake_amount := payment.amount
            vote_timestamp := ctx.now }
        let cur := (s.user_stakes vk).getD 0
        let ev2 : OracleEventStruct :=
          if vote_outcome then
            { ev with total_stake_yes := ev.total_stake_yes + payment.amount }
          else
            { ev with total_stake_no := ev.total_stake_no + payment.amount }
        ({ s with
            votes := upd s.votes vk newVote
            user_stakes := upd s.user_stakes vk (cur + payment.amount)
            oracle_events := upd s.oracle_events ⟨appId, eventId⟩ ev2 },
         Except.ok true)

/-- `EventOracle.resolve_event` (contract.py lines 396-440). -/
def resolve_event (ctx : Ctx) (appId eventId : Nat) (s : State) :
    State × Except Err Bool :=
  match s.oracle_events ⟨appId, eventId⟩ with
  | none => (s, Except.error Err.eventNotFound)
  | some ev =>
    if ev.resolved then (s, Except.error Err.alreadyResolved)
    else if ev.dispute_count = 0 then
      let ev2 : OracleEventStruct :=
        { ev with resolved := true, final_outcome := ev.initial_proposal }
      ({ s with oracle_events := upd s.oracle_events ⟨appId, eventId⟩ ev2 },
       Except.ok true)
    else if ev.voting_deadline < ctx.now then
      let ev2 : OracleEventStruct :=
        { ev with
            resolved := true
            final_outcome := decide (ev.total_stake_no < ev.total_stake_yes) }
      ({ s with oracle_events := upd s.oracle_events ⟨appId, eventId⟩ ev2 },
       Except.ok true)
    else (s, Except.error Err.votingPeriodNotEnded)

/-- `EventOracle.resolve_event_expedited` (contract.py lines 442-475). -/
def resolve_event_expedited (ctx : Ctx) (appId eventId : Nat)
    (force_outcome : Bool) (s : State) : State × Except Err Bool :=
  match s.oracle_events ⟨appId, eventId⟩ with
  | none => (s, Except.error Err.eventNotFound)
  | some ev =>
    if ev.resolved then (s, Except.error Err.alreadyResolved)
    else
      let ev2 : OracleEventStruct :=
        { ev with resolved := true, final_outcome := force_outcome }
      ({ s with oracle_events := upd s.oracle_events ⟨appId, eventId⟩ ev2 },
       Except.ok true)

/-- The eligibility test of `claim_rewards` (contract.py lines 549-564). -/
def user_voted_correctly (ctx : Ctx) (appId eventId : Nat)
    (ev : OracleEventStruct) (s : State) : Bool :=
  match s.votes ⟨appId, eventId, ctx.sender⟩ with
  | some v => v.vote_outcome == ev.final_outcome
  | none =>
    (ctx.sender == ev.proposer_address) &&
      (ev.initial_proposal == ev.final_outcome)

/-- `EventOracle.claim_rewards` (contract.py lines 519-587).  The reward
arithmetic at lines 573-574 is uint64 on chain: the product
`user_stake * total_losing_stake` (evaluated only when the winning total is
positive, per the conditional expression at line 573) and the sum
`user_stake + reward_share` panic when they reach 2^64, modelled as
`Err.overflow` aborts at the same program points — before the stake record
is deleted at line 577. -/
def claim_rewards (ctx : Ctx) (appId eventId : Nat) (s : State) :
    State × Except Err Nat :=
  match s.oracle_events ⟨appId, eventId⟩ with
  | none => (s, Except.error Err.eventNotFound)
  | some ev =>
    if ¬ ev.resolved then (s, Except.error Err.notResolved)
    else
      let sk : UserKey := ⟨appId, eventId, ctx.sender⟩
      match s.user_stakes sk with
      | none => (s, Except.error Err.noStakesFound)
      | some user_stake =>
        if ¬ (0 < user_stake) then (s, Except.error Err.noStakesToClaim)
        else if user_voted_correctly ctx appId eventId ev s = false then
          (s, Except.error Err.notWinner)
        else
          let total_winning_stake :=
            if ev.final_outcome then ev.total_stake_yes else ev.total_stake_no
          let total_losing_stake :=
            if ev.final_outcome then ev.total_stake_no else ev.total_stake_yes
          if 0 < total_winning_stake ∧
              2 ^ 64 ≤ user_stake * total_losing_stake then
            (s, Except.error Err.overflow)
          else
            let reward_share :=
              if 0 < total_winning_stake then
                user_stake * total_losing_stake / total_winning_stake
              else 0
            if 2 ^ 64 ≤ user_stake + reward_share then
              (s, Except.error Err.overflow)
            else
              let total_reward := user_stake + reward_share
              let s1 : State := { s with user_stakes := rem s.user_stakes sk }
              let s2 : State :=
                if 0 < total_reward then
                  { s1 with payments_out :=
                      s1.payments_out ++ [(ctx.sender, total_reward)] }
                else s1
              (s2, Except.ok total_reward)

/-- The uint64 reward arithmetic of `claim_rewards` (contract.py lines
573-574) stays in range for a participant with stake record `S` on event
`ev`: the product with the losing total fits when the winning total is
positive, and the payout sum fits. -/
def reward_fits (S : Nat) (ev : OracleEventStruct) : Prop :=
  (0 < (if ev.final_outcome then ev.total_stake_yes else ev.total_stake_no) →
    S * (if ev.final_outcome then ev.total_stake_no else ev.total_stake_yes) <
      2 ^ 64) ∧
  S + (if 0 < (if ev.final_outcome then ev.total_stake_yes
        else ev.total_stake_no) then
      S * (if ev.final_outcome then ev.total_stake_no
        else ev.total_stake_yes) /
        (if ev.final_outcome then ev.total_stake_yes else ev.total_stake_no)
    else 0) < 2 ^ 64

/-- One public call of the contract, with its arguments. -/
inductive Call where
  | propose (appId eventId : Nat) (outcome : Bool) (payment : Payment)
  | dispute (appId eventId : Nat) (outcome : Bool) (payment : Payment)
  | castVote (appId eventId : Nat) (outcome : Bool) (payment : Payment)
  | resolve (appId eventId : Nat)
  | resolveExpedited (appId eventId : Nat) (outcome : Bool)
  | claim (appId eventId : Nat)

def errOf {α : Type} : Except Err α → Option Err
  | Except.error e => some e
  | Except.ok _ => none

/-- Run one public call, keeping the post-state and the error, if any. -/
def run (ctx : Ctx) (c : Call) (s : State) : State × Option Err :=
  match c with
  | Call.propose a e o p =>
    ((propose_outcome ctx a e o p s).1, errOf (propose_outcome ctx a e o p s).2)
  | Call.dispute a e o p =>
    ((raise_dispute ctx a e o p s).1, errOf (raise_dispute ctx a e o p s).2)
  | Call.castVote a e o p =>
    ((vote ctx a e o p s).1, errOf (vote ctx a e o p s).2)
  | Call.resolve a e =>
    ((resolve_event ctx a e s).1, errOf (resolve_event ctx a e s).2)
  | Call.resolveExpedited a e o =>
    ((resolve_event_expedited ctx a e o s).1,
     errOf (resolve_event_expedited ctx a e o s).2)
  | Call.claim a e =>
    ((claim_rewards ctx a e s).1, errOf (claim_rewards ctx a e s).2)

/-! Concrete scenarios used by the claim theorems.  The contract address is
`100`; the proposer is address `1`, the disputer address `2`, the voter
address `3`; the oracle event is `(app 7, event 1)`.  The proposal at time 0
fixes `dispute_deadline = 86400` and `voting_deadline = 259200`. -/

def ctxP : Ctx := { sender := 1, now := 0, appAddr := 100 }

def ctxD : Ctx := { sender := 2, now := 100, appAddr := 100 }

def ctxV (t : Nat) : Ctx := { sender := 3, now := t, appAddr := 100 }

/-- State after `propose_outcome(app 7, event 1, true)` with a 10 ALGO stake. -/
def sProposed : State :=
  (propose_outcome ctxP 7 1 true ⟨10000000, 100⟩ initialState).1

/-- Scenario A: the dispute backs `false` with 20 ALGO. -/
def sDisputedA : State :=
  (raise_dispute ctxD 7 1 false ⟨20000000, 100⟩ sProposed).1

/-- Scenario A: voter 3 votes `true` with 5 ALGO during the voting window. -/
def sVoteA1 : State :=
  (vote (ctxV 86401) 7 1 true ⟨5000000, 100⟩ sDisputedA).1

/-- Scenario A: voter 3 re-votes `false` with 3 ALGO. -/
def sVoteA2 : State :=
  (vote (ctxV 86402) 7 1 false ⟨3000000, 100⟩ sVoteA1).1

/-- Scenario B: the dispute backs `true` (the contract does not require the
dispute to oppose the proposal), leaving the `no` side empty. -/
def sDisputedB : State :=
  (raise_dispute ctxD 7 1 true ⟨20000000, 100⟩ sProposed).1

/-- Scenario B: voter 3 votes `false`, `true`, `false` with 1 ALGO each. -/
def sVoteB1 : State :=
  (vote (ctxV 86401) 7 1 false ⟨1000000, 100⟩ sDisputedB).1

def sVoteB2 : State :=
  (vote (ctxV 86402) 7 1 true ⟨1000000, 100⟩ sVoteB1).1

def sVoteB3 : State :=
  (vote (ctxV 86403) 7 1 false ⟨1000000, 100⟩ sVoteB2).1

/-- Scenario C, on event (7, 2): stakes of a few thousand ALGO make the
uint64 reward product overflow.  Proposer 1 stakes 5,000 ALGO on yes,
disputer 2 stakes 10,000 ALGO on no, voter 3 stakes 6,000 ALGO on yes, and
after the voting deadline yes wins 11,000 ALGO to 10,000 ALGO. -/
def sProposedC : State :=
  (propose_outcome ctxP 7 2 true ⟨5000000000, 100⟩ initialState).1

def sDisputedC : State :=
  (raise_dispute ctxD 7 2 false ⟨10000000000, 100⟩ sProposedC).1

def sVoteC : State :=
  (vote (ctxV 86401) 7 2 true ⟨6000000000, 100⟩ sDisputedC).1

def sResolvedC : State :=
  (resolve_event { sender := 9, now := 300000, appAddr := 100 } 7 2 sVoteC).1

/-- The event record of `sResolvedC` at key (7, 2). -/
def evRC : OracleEventStruct :=
  ⟨7, 2, true, 1, 5000000000, 86400, 259200, 11000000000, 10000000000,
    true, true, 1⟩

theorem upd_eq {K V : Type} [DecidableEq K] (m : K → Option V) (k : K)
    (v : V) : upd m k v k = some v := by
  simp [upd]

theorem upd_ne {K V : Type} [DecidableEq K] (m : K → Option V) (k k2 : K)
    (v : V) (h : k2 ≠ k) : upd m k v k2 = m k2 := by
  simp [upd, h]

theorem errOf_eq_some {α : Type} (r : Except Err α) (e : Err) :
    errOf r = some e ↔ r = Except.error e := by
  cases r <;> simp [errOf]

/-- Claim C3: for an existing, unresolved event, `resolve_event` finalizes
the initial proposal whenever no dispute was raised (at any time), finalizes
the strict stake majority (a tie giving `false`) after the voting deadline
when at least one dispute was raised, and otherwise fails with the
period-not-ended error without changing anything. -/
theorem resolve_event_cases (ctx : Ctx) (a e : Nat) (s : State)
    (ev : OracleEventStruct)
    (hev : s.oracle_events ⟨a, e⟩ = some ev)
    (hres : ev.resolved = false) :
    (ev.dispute_count = 0 →
      resolve_event ctx a e s =
        ({ s with oracle_events := (upd s.oracle_events ⟨a, e⟩
            ({ ev with resolved := true
                       final_outcome := ev.initial_proposal })) },
         Except.ok true)) ∧
    (ev.dispute_count ≠ 0 → ev.voting_deadline < ctx.now →
      resolve_event ctx a e s =
        ({ s with oracle_events := (upd s.oracle_events ⟨a, e⟩
            ({ ev with resolved := true
                       final_outcome :=
                         decide (ev.total_stake_no < ev.total_stake_yes) })) },
         Except.ok true)) ∧
    (ev.total_stake_yes = ev.total_stake_no →
      decide (ev.total_stake_no < ev.total_stake_yes) = false) ∧
    (ev.dispute_count ≠ 0 → ctx.now ≤ ev.voting_deadline →
      resolve_event ctx a e s = (s, Except.error Err.votingPeriodNotEnded)) := by
  refine ⟨?_, ?_, ?_, ?_⟩
  · intro hdc
    simp [resolve_event, hev, hres, hdc]
  · intro hdc hvd
    simp [resolve_event, hev, hres, hdc, hvd]
  · intro htie
    simp [htie]
  · intro hdc hvd
    simp [resolve_event, hev, hres, hdc, Nat.not_lt.mpr hvd]

/-- Claim C10: a successful `resolve_event` only flips `resolved` to true and
writes `final_outcome` on the targeted event; every other field of that
event, every other event, and the votes, disputes, user-stakes and payment
ledgers are untouched. -/
theorem resolve_event_frame (ctx : Ctx) (a e : Nat) (s : State)
    (h : (resolve_event ctx a e s).2 = Except.ok true) :
    ∃ ev b, s.oracle_events ⟨a, e⟩ = some ev ∧
      (resolve_event ctx a e s).1 =
        { s with oracle_events := (upd s.oracle_events ⟨a, e⟩
            ({ ev with resolved := true, final_outcome := b })) } ∧
      (∀ k2, k2 ≠ EvKey.mk a e →
        (resolve_event ctx a e s).1.oracle_events k2 = s.oracle_events k2) ∧
      (resolve_event ctx a e s).1.votes = s.votes ∧
      (resolve_event ctx a e s).1.disputes = s.disputes ∧
      (resolve_event ctx a e s).1.user_stakes = s.user_stakes ∧
      (resolve_event ctx a e s).1.payments_out = s.payments_out := by
  rcases hev : s.oracle_events ⟨a, e⟩ with _ | ev
  · simp [resolve_event, hev] at h
  · by_cases hres : ev.resolved
    · simp [resolve_event, hev, hres] at h
    · by_cases hdc : ev.dispute_count = 0
      · have hst : (resolve_event ctx a e s).1 =
            { s with oracle_events := (upd s.oracle_events ⟨a, e⟩
                ({ ev with resolved := true
                           final_outcome := ev.initial_proposal })) } := by
          simp [resolve_event, hev, hres, hdc]
        refine ⟨ev, ev.initial_proposal, rfl, hst, ?_, ?_, ?_, ?_, ?_⟩ <;>
          simp [hst, upd] <;> exact fun k2 h1 h2 => absurd h2 h1
      · by_cases hvd : ev.voting_deadline < ctx.now
        · have hst : (resolve_event ctx a e s).1 =
              { s with oracle_events := (upd s.oracle_events ⟨a, e⟩
                  ({ ev with resolved := true
                             final_outcome :=
                               decide (ev.total_stake_no < ev.total_stake_yes) })) } := by
            simp [resolve_event, hev, hres, hdc, hvd]
          refine ⟨ev, decide (ev.total_stake_no < ev.total_stake_yes), rfl,
            hst, ?_, ?_, ?_, ?_, ?_⟩ <;> simp [hst, upd] <;>
            exact fun k2 h1 h2 => absurd h2 h1
        · simp [resolve_event, hev, hres, hdc, hvd] at h

theorem propose_outcome_error_frame (ctx : Ctx) (a e : Nat) (o : Bool)
    (p : Payment) (s : State) (err : Err)
    (h : (propose_outcome ctx a e o p s).2 = Except.error err) :
    (propose_outcome ctx a e o p s).1 = s := by
  unfold propose_outcome at h ⊢
  split_ifs at h ⊢ <;> simp_all

theorem raise_dispute_ok_or_frame (ctx : Ctx) (a e : Nat) (o : Bool)
    (p : Payment) (s : State) :
    (raise_dispute ctx a e o p s).1 = s ∨
      (∃ r, (raise_dispute ctx a e o p s).2 = Except.ok r) := by
  unfold raise_dispute
  repeat' split
  all_goals simp

theorem raise_dispute_error_frame (ctx : Ctx) (a e : Nat) (o : Bool)
    (p : Payment) (s : State) (err : Err)
    (h : (raise_dispute ctx a e o p s).2 = Except.error err) :
    (raise_dispute ctx a e o p s).1 = s := by
  rcases raise_dispute_ok_or_frame ctx a e o p s with h1 | ⟨r, h2⟩
  · exact h1
  · rw [h2] at h
    cases h

theorem vote_ok_or_frame (ctx : Ctx) (a e : Nat) (o : Bool)
    (p : Payment) (s : State) :
    (vote ctx a e o p s).1 = s ∨
      (vote ctx a e o p s).2 = Except.ok true := by
  unfold vote
  dsimp only
  repeat' split
  all_goals simp

theorem vote_error_frame (ctx : Ctx) (a e : Nat) (o : Bool)
    (p : Payment) (s : State) (err : Err)
    (h : (vote ctx a e o p s).2 = Except.error err) :
    (vote ctx a e o p s).1 = s := by
  rcases vote_ok_or_frame ctx a e o p s with h1 | h2
  · exact h1
  · rw [h2] at h
    cases h

theorem resolve_event_ok_or_frame (ctx : Ctx) (a e : Nat) (s : State) :
    (resolve_event ctx a e s).1 = s ∨
      (resolve_event ctx a e s).2 = Except.ok true := by
  unfold resolve_event
  dsimp only
  repeat' split
  all_goals simp

theorem resolve_event_error_frame (ctx : Ctx) (a e : Nat) (s : State)
    (err : Err) (h : (resolve_event ctx a e s).2 = Except.error err) :
    (resolve_event ctx a e s).1 = s := by
  rcases resolve_event_ok_or_frame ctx a e s with h1 | h2
  · exact h1
  · rw [h2] at h
    cases h

theorem resolve_event_expedited_ok_or_frame (ctx : Ctx) (a e : Nat)
    (o : Bool) (s : State) :
    (resolve_event_expedited ctx a e o s).1 = s ∨
      (resolve_event_expedited ctx a e o s).2 = Except.ok true := by
  unfold resolve_event_expedited
  dsimp only
  repeat' split
  all_goals simp

theorem resolve_event_expedited_error_frame (ctx : Ctx) (a e : Nat) (o : Bool)
    (s : State) (err : Err)
    (h : (resolve_event_expedited ctx a e o s).2 = Except.error err) :
    (resolve_event_expedited ctx a e o s).1 = s := by
  rcases resolve_event_expedited_ok_or_frame ctx a e o s with h1 | h2
  · exact h1
  · rw [h2] at h
    cases h

theorem claim_rewards_ok_or_frame (ctx : Ctx) (a e : Nat) (s : State) :
    (claim_rewards ctx a e s).1 = s ∨
      (∃ r, (claim_rewards ctx a e s).2 = Except.ok r) := by
  have H : ∀ res, claim_rewards ctx a e s = res →
      res.1 = s ∨ ∃ r, res.2 = Except.ok r := by
    intro res h
    unfold claim_rewards at h
    dsimp only at h
    repeat' split at h
    all_goals rw [← h]
    all_goals simp
  exact H _ rfl

theorem claim_rewards_error_frame (ctx : Ctx) (a e : Nat) (s : State)
    (err : Err) (h : (claim_rewards ctx a e s).2 = Except.error err) :
    (claim_rewards ctx a e s).1 = s := by
  rcases claim_rewards_ok_or_frame ctx a e s with h1 | ⟨r, h2⟩
  · exact h1
  · rw [h2] at h
    cases h

/-- Claim C8: every public operation is all-or-nothing — whenever a call ends
in an error, the post-state is exactly the pre-state, so none of the four box
maps (nor the payment log) is mutated on a rejected precondition. -/
theorem operations_atomic (ctx : Ctx) (c : Call) (s : State) (err : Err)
    (h : (run ctx c s).2 = some err) : (run ctx c s).1 = s := by
  cases c with
  | propose a e o p =>
    simp only [run] at h ⊢
    rw [errOf_eq_some] at h
    exact propose_outcome_error_frame ctx a e o p s err h
  | dispute a e o p =>
    simp only [run] at h ⊢
    rw [errOf_eq_some] at h
    exact raise_dispute_error_frame ctx a e o p s err h
  | castVote a e o p =>
    simp only [run] at h ⊢
    rw [errOf_eq_some] at h
    exact vote_error_frame ctx a e o p s err h
  | resolve a e =>
    simp only [run] at h ⊢
    rw [errOf_eq_some] at h
    exact resolve_event_error_frame ctx a e s err h
  | resolveExpedited a e o =>
    simp only [run] at h ⊢
    rw [errOf_eq_some] at h
    exact resolve_event_expedited_error_frame ctx a e o s err h
  | claim a e =>
    simp only [run] at h ⊢
    rw [errOf_eq_some] at h
    exact claim_rewards_error_frame ctx a e s err h

theorem propose_outcome_events_frame_ne (ctx : Ctx) (a e : Nat) (o : Bool)
    (p : Payment) (s : State) (k : EvKey) (hkey : ¬ k = EvKey.mk a e) :
    ((propose_outcome ctx a e o p s).1).oracle_events k = s.oracle_events k := by
  unfold propose_outcome
  split_ifs <;> simp_all [upd]

theorem raise_dispute_events_frame_ne (ctx : Ctx) (a e : Nat) (o : Bool)
    (p : Payment) (s : State) (k : EvKey) (hkey : ¬ k = EvKey.mk a e) :
    ((raise_dispute ctx a e o p s).1).oracle_events k = s.oracle_events k := by
  unfold raise_dispute
  dsimp only
  repeat' split
  all_goals simp_all [upd]

set_option maxHeartbeats 1000000 in
theorem vote_events_frame_ne (ctx : Ctx) (a e : Nat) (o : Bool)
    (p : Payment) (s : State) (k : EvKey) (hkey : ¬ k = EvKey.mk a e) :
    ((vote ctx a e o p s).1).oracle_events k = s.oracle_events k := by
  unfold vote
  dsimp only
  repeat' split
  all_goals simp_all [upd]

theorem resolve_event_events_frame_ne (ctx : Ctx) (a e : Nat) (s : State)
    (k : EvKey) (hkey : ¬ k = EvKey.mk a e) :
    ((resolve_event ctx a e s).1).oracle_events k = s.oracle_events k := by
  unfold resolve_event
  dsimp only
  repeat' split
  all_goals simp_all [upd]

theorem resolve_event_expedited_events_frame_ne (ctx : Ctx) (a e : Nat)
    (o : Bool) (s : State) (k : EvKey) (hkey : ¬ k = EvKey.mk a e) :
    ((resolve_event_expedited ctx a e o s).1).oracle_events k =
      s.oracle_events k := by
  unfold resolve_event_expedited
  dsimp only
  repeat' split
  all_goals simp_all [upd]

theorem raise_dispute_resolved_error (ctx : Ctx) (a e : Nat) (o : Bool)
    (p : Payment) (s : State) (ev : OracleEventStruct)
    (hk : s.oracle_events ⟨a, e⟩ = some ev) (hres : ev.resolved = true) :
    raise_dispute ctx a e o p s = (s, Except.error Err.disputePeriodEnded) ∨
      raise_dispute ctx a e o p s = (s, Except.error Err.alreadyResolved) := by
  by_cases hc1 : ctx.now ≤ ev.dispute_deadline
  · right
    simp [raise_dispute, hk, hc1, hres]
  · left
    simp [raise_dispute, hk, hc1]

theorem vote_resolved_error (ctx : Ctx) (a e : Nat) (o : Bool)
    (p : Payment) (s : State) (ev : OracleEventStruct)
    (hk : s.oracle_events ⟨a, e⟩ = some ev) (hres : ev.resolved = true) :
    vote ctx a e o p s = (s, Except.error Err.votingNotStarted) ∨
      vote ctx a e o p s = (s, Except.error Err.votingEnded) ∨
      vote ctx a e o p s = (s, Except.error Err.alreadyResolved) := by
  by_cases hc1 : ev.dispute_deadline < ctx.now
  · by_cases hc2 : ctx.now ≤ ev.voting_deadline
    · right
      right
      simp [vote, hk, hc1, hc2, hres]
    · right
      left
      simp [vote, hk, hc1, hc2]
  · left
    simp [vote, hk, hc1]

theorem propose_preserves_event (ctx : Ctx) (a e : Nat) (o : Bool)
    (p : Payment) (s : State) (k : EvKey) (ev : OracleEventStruct)
    (hk : s.oracle_events k = some ev) :
    ((propose_outcome ctx a e o p s).1).oracle_events k = some ev := by
  by_cases hkey : k = EvKey.mk a e
  · subst hkey
    unfold propose_outcome
    split_ifs <;> simp_all
  · rw [propose_outcome_events_frame_ne ctx a e o p s k hkey]
    exact hk

theorem raise_dispute_preserves_resolved (ctx : Ctx) (a e : Nat) (o : Bool)
    (p : Payment) (s : State) (k : EvKey) (ev : OracleEventStruct)
    (hk : s.oracle_events k = some ev) (hres : ev.resolved = true) :
    ((raise_dispute ctx a e o p s).1).oracle_events k = some ev := by
  by_cases hkey : k = EvKey.mk a e
  · subst hkey
    rcases raise_dispute_resolved_error ctx a e o p s ev hk hres with h1 | h1 <;>
      rw [h1] <;> exact hk
  · rw [raise_dispute_events_frame_ne ctx a e o p s k hkey]
    exact hk

theorem vote_preserves_resolved (ctx : Ctx) (a e : Nat) (o : Bool)
    (p : Payment) (s : State) (k : EvKey) (ev : OracleEventStruct)
    (hk : s.oracle_events k = some ev) (hres : ev.resolved = true) :
    ((vote ctx a e o p s).1).oracle_events k = some ev := by
  by_cases hkey : k = EvKey.mk a e
  · subst hkey
    rcases vote_resolved_error ctx a e o p s ev hk hres with h1 | h1 | h1 <;>
      rw [h1] <;> exact hk
  · rw [vote_events_frame_ne ctx a e o p s k hkey]
    exact hk

theorem resolve_event_preserves_resolved (ctx : Ctx) (a e : Nat) (s : State)
    (k : EvKey) (ev : OracleEventStruct)
    (hk : s.oracle_events k = some ev) (hres : ev.resolved = true) :
    ((resolve_event ctx a e s).1).oracle_events k = some ev := by
  by_cases hkey : k = EvKey.mk a e
  · subst hkey
    have h1 : resolve_event ctx a e s = (s, Except.error Err.alreadyResolved) := by
      simp [resolve_event, hk, hres]
    rw [h1]
    exact hk
  · rw [resolve_event_events_frame_ne ctx a e s k hkey]
    exact hk

theorem resolve_event_expedited_preserves_resolved (ctx : Ctx) (a e : Nat)
    (o : Bool) (s : State) (k : EvKey) (ev : OracleEventStruct)
    (hk : s.oracle_events k = some ev) (hres : ev.resolved = true) :
    ((resolve_event_expedited ctx a e o s).1).oracle_events k = some ev := by
  by_cases hkey : k = EvKey.mk a e
  · subst hkey
    have h1 : resolve_event_expedited ctx a e o s =
        (s, Except.error Err.alreadyResolved) := by
      simp [resolve_event_expedited, hk, hres]
    rw [h1]
    exact hk
  · rw [resolve_event_expedited_events_frame_ne ctx a e o s k hkey]
    exact hk

set_option maxHeartbeats 1000000 in
theorem claim_rewards_events_frame (ctx : Ctx) (a e : Nat) (s : State) :
    ((claim_rewards ctx a e s).1).oracle_events = s.oracle_events := by
  unfold claim_rewards
  dsimp only
  repeat' split
  all_goals simp_all

/-- Claim C6: `resolved` is terminal.  A `resolve_event` or
`resolve_event_expedited` call on an already-resolved event always fails with
the already-resolved error and leaves the state untouched, and no public
call whatsoever can clear the `resolved` flag or change `final_outcome` of a
resolved event. -/
theorem resolved_is_terminal :
    (∀ (ctx : Ctx) (a e : Nat) (s : State) (ev : OracleEventStruct),
      s.oracle_events ⟨a, e⟩ = some ev → ev.resolved = true →
      resolve_event ctx a e s = (s, Except.error Err.alreadyResolved)) ∧
    (∀ (ctx : Ctx) (a e : Nat) (o : Bool) (s : State) (ev : OracleEventStruct),
      s.oracle_events ⟨a, e⟩ = some ev → ev.resolved = true →
      resolve_event_expedited ctx a e o s =
        (s, Except.error Err.alreadyResolved)) ∧
    (∀ (ctx : Ctx) (c : Call) (s : State) (k : EvKey) (ev : OracleEventStruct),
      s.oracle_events k = some ev → ev.resolved = true →
      ∃ ev2, ((run ctx c s).1).oracle_events k = some ev2 ∧
        ev2.resolved = true ∧ ev2.final_outcome = ev.final_outcome) := by
  refine ⟨?_, ?_, ?_⟩
  · intro ctx a e s ev hk hres
    simp [resolve_event, hk, hres]
  · intro ctx a e o s ev hk hres
    simp [resolve_event_expedited, hk, hres]
  · intro ctx c s k ev hk hres
    refine ⟨ev, ?_, hres, rfl⟩
    cases c with
    | propose a e o p => exact propose_preserves_event ctx a e o p s k ev hk
    | dispute a e o p =>
      exact raise_dispute_preserves_resolved ctx a e o p s k ev hk hres
    | castVote a e o p =>
      exact vote_preserves_resolved ctx a e o p s k ev hk hres
    | resolve a e =>
      exact resolve_event_preserves_resolved ctx a e s k ev hk hres
    | resolveExpedited a e o =>
      exact resolve_event_expedited_preserves_resolved ctx a e o s k ev hk hres
    | claim a e =>
      rw [show ((run ctx (Call.claim a e) s).1) = (claim_rewards ctx a e s).1
        from rfl, claim_rewards_events_frame]
      exact hk

/-- The successful payout path of `claim_rewards`: with an existing,
resolved event, a positive stake record, a passing eligibility test, and
reward arithmetic within uint64 range, the stake record is deleted and the
payout `S + share` is transferred and returned. -/
theorem claim_rewards_pays (ctx : Ctx) (a e : Nat) (s : State)
    (ev : OracleEventStruct) (S : Nat)
    (hev : s.oracle_events ⟨a, e⟩ = some ev)
    (hres : ev.resolved = true)
    (hstake : s.user_stakes ⟨a, e, ctx.sender⟩ = some S)
    (hpos : 0 < S)
    (helig : user_voted_correctly ctx a e ev s = true)
    (hg1 : ¬ (0 < (if ev.final_outcome then ev.total_stake_yes
        else ev.total_stake_no) ∧
      2 ^ 64 ≤ S * (if ev.final_outcome then ev.total_stake_no
        else ev.total_stake_yes)))
    (hg2 : ¬ (2 ^ 64 ≤ S + (if 0 < (if ev.final_outcome
        then ev.total_stake_yes else ev.total_stake_no) then
          S * (if ev.final_outcome then ev.total_stake_no
            else ev.total_stake_yes) /
            (if ev.final_outcome then ev.total_stake_yes
              else ev.total_stake_no) else 0))) :
    claim_rewards ctx a e s =
      ({ s with user_stakes := rem s.user_stakes ⟨a, e, ctx.sender⟩
                payments_out := s.payments_out ++
                  [(ctx.sender, S + (if 0 < (if ev.final_outcome
                    then ev.total_stake_yes else ev.total_stake_no) then
                      S * (if ev.final_outcome then ev.total_stake_no
                        else ev.total_stake_yes) /
                        (if ev.final_outcome then ev.total_stake_yes
                          else ev.total_stake_no) else 0))] },
       Except.ok (S + (if 0 < (if ev.final_outcome then ev.total_stake_yes
          else ev.total_stake_no) then
            S * (if ev.final_outcome then ev.total_stake_no
              else ev.total_stake_yes) /
              (if ev.final_outcome then ev.total_stake_yes
                else ev.total_stake_no) else 0))) := by
  have hrpos : 0 < S + (if 0 < (if ev.final_outcome then ev.total_stake_yes
      else ev.total_stake_no) then
        S * (if ev.final_outcome then ev.total_stake_no
          else ev.total_stake_yes) /
          (if ev.final_outcome then ev.total_stake_yes
            else ev.total_stake_no) else 0) :=
    Nat.lt_of_lt_of_le hpos (Nat.le_add_right S _)
  unfold claim_rewards
  rw [hev]
  dsimp only
  rw [if_neg (fun h => h hres), hstake]
  dsimp only
  rw [if_neg (fun h => h hpos),
    if_neg (show ¬ (user_voted_correctly ctx a e ev s = false) by
      simp [helig]),
    if_neg hg1, if_neg hg2, if_pos hrpos]

/-- The multiplication-overflow abort path of `claim_rewards`. -/
theorem claim_rewards_overflow_of_mul (ctx : Ctx) (a e : Nat) (s : State)
    (ev : OracleEventStruct) (S : Nat)
    (hev : s.oracle_events ⟨a, e⟩ = some ev)
    (hres : ev.resolved = true)
    (hstake : s.user_stakes ⟨a, e, ctx.sender⟩ = some S)
    (hpos : 0 < S)
    (helig : user_voted_correctly ctx a e ev s = true)
    (hg1 : 0 < (if ev.final_outcome then ev.total_stake_yes
        else ev.total_stake_no) ∧
      2 ^ 64 ≤ S * (if ev.final_outcome then ev.total_stake_no
        else ev.total_stake_yes)) :
    claim_rewards ctx a e s = (s, Except.error Err.overflow) := by
  unfold claim_rewards
  rw [hev]
  dsimp only
  rw [if_neg (fun h => h hres), hstake]
  dsimp only
  rw [if_neg (fun h => h hpos),
    if_neg (show ¬ (user_voted_correctly ctx a e ev s = false) by
      simp [helig]),
    if_pos hg1]

/-- The addition-overflow abort path of `claim_rewards`. -/
theorem claim_rewards_overflow_of_add (ctx : Ctx) (a e : Nat) (s : State)
    (ev : OracleEventStruct) (S : Nat)
    (hev : s.oracle_events ⟨a, e⟩ = some ev)
    (hres : ev.resolved = true)
    (hstake : s.user_stakes ⟨a, e, ctx.sender⟩ = some S)
    (hpos : 0 < S)
    (helig : user_voted_correctly ctx a e ev s = true)
    (hg1 : ¬ (0 < (if ev.final_outcome then ev.total_stake_yes
        else ev.total_stake_no) ∧
      2 ^ 64 ≤ S * (if ev.final_outcome then ev.total_stake_no
        else ev.total_stake_yes)))
    (hc2 : 2 ^ 64 ≤ S + (if 0 < (if ev.final_outcome
        then ev.total_stake_yes else ev.total_stake_no) then
          S * (if ev.final_outcome then ev.total_stake_no
            else ev.total_stake_yes) /
            (if ev.final_outcome then ev.total_stake_yes
              else ev.total_stake_no) else 0)) :
    claim_rewards ctx a e s = (s, Except.error Err.overflow) := by
  unfold claim_rewards
  rw [hev]
  dsimp only
  rw [if_neg (fun h => h hres), hstake]
  dsimp only
  rw [if_neg (fun h => h hpos),
    if_neg (show ¬ (user_voted_correctly ctx a e ev s = false) by
      simp [helig]),
    if_neg hg1, if_pos hc2]

/-- Claim C4 (amended): an eligible participant of a resolved event with
recorded stake `S > 0` whose uint64 reward arithmetic stays in range
(`S * L < 2^64` whenever `W > 0`, and the payout `r < 2^64`) is paid
`r = S + floor(S * L / W)` (with `W` the winning-side and `L` the
losing-side total, and share `0` when `W = 0`); their stake record is
deleted, the transfer happens (the reward is positive), and a second claim
by the same participant fails with the not-found error and changes
nothing.  When the arithmetic would overflow, the call aborts with the
arithmetic error instead (see the counterexample). -/
theorem claim_rewards_reward (ctx : Ctx) (a e : Nat) (s : State)
    (ev : OracleEventStruct) (S W L r : Nat)
    (hev : s.oracle_events ⟨a, e⟩ = some ev)
    (hres : ev.resolved = true)
    (hstake : s.user_stakes ⟨a, e, ctx.sender⟩ = some S)
    (hpos : 0 < S)
    (helig : user_voted_correctly ctx a e ev s = true)
    (hW : W = if ev.final_outcome then ev.total_stake_yes else ev.total_stake_no)
    (hL : L = if ev.final_outcome then ev.total_stake_no else ev.total_stake_yes)
    (hr : r = S + (if 0 < W then S * L / W else 0))
    (hov : 0 < W → S * L < 2 ^ 64)
    (hfit : r < 2 ^ 64) :
    0 < r ∧
    claim_rewards ctx a e s =
      ({ s with user_stakes := rem s.user_stakes ⟨a, e, ctx.sender⟩
                payments_out := s.payments_out ++ [(ctx.sender, r)] },
       Except.ok r) ∧
    claim_rewards ctx a e (claim_rewards ctx a e s).1 =
      ((claim_rewards ctx a e s).1, Except.error Err.noStakesFound) := by
  subst hW hL hr
  have hg1 : ¬ (0 < (if ev.final_outcome then ev.total_stake_yes
      else ev.total_stake_no) ∧
      2 ^ 64 ≤ S * (if ev.final_outcome then ev.total_stake_no
        else ev.total_stake_yes)) :=
    fun h => absurd h.2 (Nat.not_le.mpr (hov h.1))
  have hg2 : ¬ (2 ^ 64 ≤ S + (if 0 < (if ev.final_outcome
      then ev.total_stake_yes else ev.total_stake_no) then
        S * (if ev.final_outcome then ev.total_stake_no
          else ev.total_stake_yes) /
          (if ev.final_outcome then ev.total_stake_yes
            else ev.total_stake_no) else 0)) := Nat.not_le.mpr hfit
  have hrpos : 0 < S + (if 0 < (if ev.final_outcome then ev.total_stake_yes
      else ev.total_stake_no) then
        S * (if ev.final_outcome then ev.total_stake_no
          else ev.total_stake_yes) /
          (if ev.final_outcome then ev.total_stake_yes
            else ev.total_stake_no) else 0) :=
    Nat.lt_of_lt_of_le hpos (Nat.le_add_right S _)
  have hmain :=
    claim_rewards_pays ctx a e s ev S hev hres hstake hpos helig hg1 hg2
  refine ⟨hrpos, hmain, ?_⟩
  rw [hmain]
  simp [claim_rewards, hev, hres, rem]

/-- Claim C5 (amended): for a resolved event and a participant holding a
positive stake record, `claim_rewards` succeeds exactly when the
participant's vote record matches the final outcome — or, if they never
voted, exactly when they are the proposer and the initial proposal matches
the final outcome — and the uint64 reward arithmetic stays in range; an
ineligible participant gets the not-winner error and the state (funds
included) is untouched, while an eligible participant whose reward
arithmetic overflows gets the arithmetic error instead of a payout. -/
theorem claim_rewards_eligibility (ctx : Ctx) (a e : Nat) (s : State)
    (ev : OracleEventStruct) (S : Nat)
    (hev : s.oracle_events ⟨a, e⟩ = some ev)
    (hres : ev.resolved = true)
    (hstake : s.user_stakes ⟨a, e, ctx.sender⟩ = some S)
    (hpos : 0 < S) :
    (∀ v, s.votes ⟨a, e, ctx.sender⟩ = some v →
      ((∃ r, (claim_rewards ctx a e s).2 = Except.ok r) ↔
        (v.vote_outcome = ev.final_outcome ∧ reward_fits S ev))) ∧
    (s.votes ⟨a, e, ctx.sender⟩ = none →
      ((∃ r, (claim_rewards ctx a e s).2 = Except.ok r) ↔
        ((ctx.sender = ev.proposer_address ∧
          ev.initial_proposal = ev.final_outcome) ∧ reward_fits S ev))) ∧
    (user_voted_correctly ctx a e ev s = false →
      claim_rewards ctx a e s = (s, Except.error Err.notWinner)) ∧
    (user_voted_correctly ctx a e ev s = true → ¬ reward_fits S ev →
      (claim_rewards ctx a e s).2 = Except.error Err.overflow) := by
  have hok : user_voted_correctly ctx a e ev s = true → reward_fits S ev →
      ∃ r, (claim_rewards ctx a e s).2 = Except.ok r := by
    intro helig hfits
    have hg1 : ¬ (0 < (if ev.final_outcome then ev.total_stake_yes
        else ev.total_stake_no) ∧
        2 ^ 64 ≤ S * (if ev.final_outcome then ev.total_stake_no
          else ev.total_stake_yes)) :=
      fun h => absurd h.2 (Nat.not_le.mpr (hfits.1 h.1))
    have hg2 : ¬ (2 ^ 64 ≤ S + (if 0 < (if ev.final_outcome
        then ev.total_stake_yes else ev.total_stake_no) then
          S * (if ev.final_outcome then ev.total_stake_no
            else ev.total_stake_yes) /
            (if ev.final_outcome then ev.total_stake_yes
              else ev.total_stake_no) else 0)) := Nat.not_le.mpr hfits.2
    exact ⟨_, by
      rw [claim_rewards_pays ctx a e s ev S hev hres hstake hpos helig hg1 hg2]⟩
  have herr : user_voted_correctly ctx a e ev s = false →
      claim_rewards ctx a e s = (s, Except.error Err.notWinner) := by
    intro hbad
    simp [claim_rewards, hev, hres, hstake, hpos, hpos.ne', hbad]
  have hovf : user_voted_correctly ctx a e ev s = true → ¬ reward_fits S ev →
      (claim_rewards ctx a e s).2 = Except.error Err.overflow := by
    intro helig hnf
    by_cases hc1 : (0 < (if ev.final_outcome then ev.total_stake_yes
        else ev.total_stake_no) →
        S * (if ev.final_outcome then ev.total_stake_no
          else ev.total_stake_yes) < 2 ^ 64)
    · have hc2 : 2 ^ 64 ≤ S + (if 0 < (if ev.final_outcome
          then ev.total_stake_yes else ev.total_stake_no) then
            S * (if ev.final_outcome then ev.total_stake_no
              else ev.total_stake_yes) /
              (if ev.final_outcome then ev.total_stake_yes
                else ev.total_stake_no) else 0) := by
        by_contra hc2
        exact hnf ⟨hc1, Nat.not_le.mp hc2⟩
      have hg1 : ¬ (0 < (if ev.final_outcome then ev.total_stake_yes
          else ev.total_stake_no) ∧
          2 ^ 64 ≤ S * (if ev.final_outcome then ev.total_stake_no
            else ev.total_stake_yes)) :=
        fun h => absurd h.2 (Nat.not_le.mpr (hc1 h.1))
      rw [claim_rewards_overflow_of_add ctx a e s ev S hev hres hstake hpos
        helig hg1 hc2]
    · push_neg at hc1
      have hg1 : 0 < (if ev.final_outcome then ev.total_stake_yes
          else ev.total_stake_no) ∧
          2 ^ 64 ≤ S * (if ev.final_outcome then ev.total_stake_no
            else ev.total_stake_yes) := ⟨hc1.1, hc1.2⟩
      rw [claim_rewards_overflow_of_mul ctx a e s ev S hev hres hstake hpos
        helig hg1]
  refine ⟨?_, ?_, herr, hovf⟩
  · intro v hv
    have hiff : user_voted_correctly ctx a e ev s = true ↔
        v.vote_outcome = ev.final_outcome := by
      simp [user_voted_correctly, hv]
    constructor
    · rintro ⟨r, hr⟩
      by_cases hel : user_voted_correctly ctx a e ev s = true
      · refine ⟨hiff.mp hel, ?_⟩
        by_contra hnf
        rw [hovf hel hnf] at hr
        cases hr
      · have hfalse : user_voted_correctly ctx a e ev s = false :=
          Bool.eq_false_iff.mpr hel
        rw [herr hfalse] at hr
        cases hr
    · rintro ⟨hmatch, hf⟩
      exact hok (hiff.mpr hmatch) hf
  · intro hv
    have hiff : user_voted_correctly ctx a e ev s = true ↔
        (ctx.sender = ev.proposer_address ∧
          ev.initial_proposal = ev.final_outcome) := by
      simp [user_voted_correctly, hv]
    constructor
    · rintro ⟨r, hr⟩
      by_cases hel : user_voted_correctly ctx a e ev s = true
      · refine ⟨hiff.mp hel, ?_⟩
        by_contra hnf
        rw [hovf hel hnf] at hr
        cases hr
      · have hfalse : user_voted_correctly ctx a e ev s = false :=
          Bool.eq_false_iff.mpr hel
        rw [herr hfalse] at hr
        cases hr
    · rintro ⟨hab, hf⟩
      exact hok (hiff.mpr hab) hf

/-- Claim C7 (amended): `propose_outcome` succeeds exactly when the stake
meets the 10 ALGO minimum, the payment is addressed to the contract, and no
event exists for the identity; the stake minimum is checked first, so a
too-small stake gives the insufficient-stake error even when the identity
is taken, and the already-exists error is reached only with a sufficient,
correctly addressed stake.  On success the event is created with
`dispute_deadline = now + 86400 < voting_deadline = now + 259200`, the
whole stake seeds the claimed side (the other side is zero), and the
caller's stake record equals the stake. -/
theorem propose_outcome_cases (ctx : Ctx) (a e : Nat) (o : Bool)
    (p : Payment) (s : State) :
    (p.amount < 10000000 →
      propose_outcome ctx a e o p s = (s, Except.error Err.insufficientStake)) ∧
    (10000000 ≤ p.amount → p.receiver ≠ ctx.appAddr →
      propose_outcome ctx a e o p s = (s, Except.error Err.wrongReceiver)) ∧
    (10000000 ≤ p.amount → p.receiver = ctx.appAddr →
      ∀ ev0, s.oracle_events ⟨a, e⟩ = some ev0 →
      propose_outcome ctx a e o p s = (s, Except.error Err.alreadyExists)) ∧
    (10000000 ≤ p.amount → p.receiver = ctx.appAddr →
      s.oracle_events ⟨a, e⟩ = none →
      ∃ ev2, propose_outcome ctx a e o p s =
        ({ s with oracle_events := (upd s.oracle_events ⟨a, e⟩ ev2)
                  user_stakes :=
                    (upd s.user_stakes ⟨a, e, ctx.sender⟩ p.amount) },
         Except.ok true) ∧
      ev2.initial_proposal = o ∧
      ev2.proposer_address = ctx.sender ∧
      ev2.proposal_stake = p.amount ∧
      ev2.dispute_deadline = ctx.now + 86400 ∧
      ev2.voting_deadline = ctx.now + 259200 ∧
      ev2.dispute_deadline < ev2.voting_deadline ∧
      ev2.total_stake_yes = (if o then p.amount else 0) ∧
      ev2.total_stake_no = (if o then 0 else p.amount) ∧
      ev2.resolved = false ∧
      ev2.dispute_count = 0) := by
  refine ⟨?_, ?_, ?_, ?_⟩
  · intro h1
    simp [propose_outcome, h1]
  · intro h1 h2
    simp [propose_outcome, Nat.not_lt.mpr h1, h2]
  · intro h1 h2 ev0 hev0
    simp [propose_outcome, Nat.not_lt.mpr h1, h2, hev0]
  · intro h1 h2 hnone
    refine ⟨{ responsive_donation_app_id := a
              event_id := e
              initial_proposal := o
              proposer_address := ctx.sender
              proposal_stake := p.amount
              dispute_deadline := ctx.now + 86400
              voting_deadline := ctx.now + 259200
              total_stake_yes := if o then p.amount else 0
              total_stake_no := if o then 0 else p.amount
              resolved := false
              final_outcome := false
              dispute_count := 0 },
      ?_, rfl, rfl, rfl, rfl, rfl, by dsimp only; omega, rfl, rfl, rfl, rfl⟩
    simp [propose_outcome, Nat.not_lt.mpr h1, h2, hnone]

/-- Claim C2 (amended): on a repeat vote the old stake is subtracted from
the previously chosen outcome's running total, the Vote record's outcome and
timestamp are overwritten and its stake becomes the old stake plus the new
payment, but only the new payment amount — not the merged cumulative stake —
is added to the newly chosen outcome's running total. -/
theorem vote_merge (ctx : Ctx) (a e : Nat) (o : Bool) (p : Payment)
    (s : State) (ev : OracleEventStruct) (v : VoteStruct)
    (hev : s.oracle_events ⟨a, e⟩ = some ev)
    (ht1 : ev.dispute_deadline < ctx.now)
    (ht2 : ctx.now ≤ ev.voting_deadline)
    (hres : ev.resolved = false)
    (hdc : 0 < ev.dispute_count)
    (hamt : 1000000 ≤ p.amount)
    (hrecv : p.receiver = ctx.appAddr)
    (hv : s.votes ⟨a, e, ctx.sender⟩ = some v)
    (hnou : v.stake_amount ≤
      (if v.vote_outcome then ev.total_stake_yes else ev.total_stake_no)) :
    (vote ctx a e o p s).2 = Except.ok true ∧
    ((vote ctx a e o p s).1).votes ⟨a, e, ctx.sender⟩ =
      some { v with vote_outcome := o
                    stake_amount := v.stake_amount + p.amount
                    vote_timestamp := ctx.now } ∧
    ((vote ctx a e o p s).1).user_stakes ⟨a, e, ctx.sender⟩ =
      some ((s.user_stakes ⟨a, e, ctx.sender⟩).getD 0 + p.amount) ∧
    ((vote ctx a e o p s).1).oracle_events ⟨a, e⟩ =
      some ({ ev with
               total_stake_yes :=
                 (if v.vote_outcome then ev.total_stake_yes - v.stake_amount
                   else ev.total_stake_yes) + (if o then p.amount else 0)
               total_stake_no :=
                 (if v.vote_outcome then ev.total_stake_no
                   else ev.total_stake_no - v.stake_amount) +
                   (if o then 0 else p.amount) }) := by
  have hno : ¬ ((if v.vote_outcome then ev.total_stake_yes
      else ev.total_stake_no) < v.stake_amount) := Nat.not_lt.mpr hnou
  cases o <;> cases hvo : v.vote_outcome <;> simp [hvo] at hno <;>
    refine ⟨?_, ?_, ?_, ?_⟩ <;>
      simp [vote, hev, ht1, ht2, hres, hdc, hrecv, hv, hvo, upd,
        Nat.not_lt.mpr hno, Nat.not_lt.mpr hamt]

/-- Claim C2 (counterexample): in the 5-then-3 merge scenario the code
leaves the Vote at (false, 8 ALGO) but the event's yes-total returns to its
value from before the first vote (it is not 5 lower) and the no-total rises
by only 3 (not 8). -/
theorem vote_merge_counterexample :
    (∃ evB, sDisputedA.oracle_events ⟨7, 1⟩ = some evB ∧
      evB.total_stake_yes = 10000000 ∧ evB.total_stake_no = 20000000) ∧
    (∃ v, sVoteA2.votes ⟨7, 1, 3⟩ = some v ∧
      v.vote_outcome = false ∧ v.stake_amount = 8000000) ∧
    (∃ ev, sVoteA2.oracle_events ⟨7, 1⟩ = some ev ∧
      ev.total_stake_yes = 10000000 ∧ ev.total_stake_no = 23000000 ∧
      ev.total_stake_yes ≠ 10000000 - 5000000 ∧
      ev.total_stake_no ≠ 20000000 + 8000000) := by
  refine ⟨⟨_, rfl, by decide, by decide⟩, ⟨_, rfl, by decide, by decide⟩,
    ⟨_, rfl, by decide, by decide, by decide, by decide⟩⟩

/-- Claim C1: the stake-sum invariant fails on the code.  After
propose(yes, 10 ALGO), dispute(no, 20 ALGO), vote(yes, 5 ALGO) and a repeat
vote(no, 3 ALGO) — 38 ALGO of stake accepted in total — the totals are
yes = 10 ALGO and no = 23 ALGO: the repeat vote removed the old 5 ALGO from
the yes-total but re-added only the new 3 ALGO payment, so 33 ≠ 38. -/
theorem stake_sum_totals_drift :
    (propose_outcome ctxP 7 1 true ⟨10000000, 100⟩ initialState).2 =
      Except.ok true ∧
    (raise_dispute ctxD 7 1 false ⟨20000000, 100⟩ sProposed).2 =
      Except.ok 1 ∧
    (vote (ctxV 86401) 7 1 true ⟨5000000, 100⟩ sDisputedA).2 =
      Except.ok true ∧
    (vote (ctxV 86402) 7 1 false ⟨3000000, 100⟩ sVoteA1).2 =
      Except.ok true ∧
    (∃ ev, sVoteA2.oracle_events ⟨7, 1⟩ = some ev ∧
      ev.total_stake_yes = 10000000 ∧ ev.total_stake_no = 23000000 ∧
      ev.total_stake_yes + ev.total_stake_no ≠
        10000000 + 20000000 + 5000000 + 3000000) := by
  refine ⟨rfl, rfl, rfl, rfl, _, rfl, by decide, by decide, by decide⟩

/-- Claim C9: the merge-branch subtraction can underflow in a reachable
state.  With the no-side holding only this voter's flip-flopped votes, the
fourth vote finds a no-total of 1 ALGO but an accumulated vote stake of
3 ALGO pointing at no, and the uint64 subtraction aborts. -/
theorem vote_underflow_reachable :
    (propose_outcome ctxP 7 1 true ⟨10000000, 100⟩ initialState).2 =
      Except.ok true ∧
    (raise_dispute ctxD 7 1 true ⟨20000000, 100⟩ sProposed).2 =
      Except.ok 1 ∧
    (vote (ctxV 86401) 7 1 false ⟨1000000, 100⟩ sDisputedB).2 =
      Except.ok true ∧
    (vote (ctxV 86402) 7 1 true ⟨1000000, 100⟩ sVoteB1).2 =
      Except.ok true ∧
    (vote (ctxV 86403) 7 1 false ⟨1000000, 100⟩ sVoteB2).2 =
      Except.ok true ∧
    (∃ v ev, sVoteB3.votes ⟨7, 1, 3⟩ = some v ∧
      sVoteB3.oracle_events ⟨7, 1⟩ = some ev ∧
      v.vote_outcome = false ∧ v.stake_amount = 3000000 ∧
      ev.total_stake_no = 1000000 ∧ ev.total_stake_no < v.stake_amount) ∧
    (vote (ctxV 86404) 7 1 true ⟨1000000, 100⟩ sVoteB3).2 =
      Except.error Err.underflow := by
  refine ⟨rfl, rfl, rfl, rfl, rfl,
    ⟨_, _, rfl, rfl, by decide, by decide, by decide, by decide⟩, rfl⟩

/-- Claim C7 (counterexample): with the identity taken but a 0 stake the
call fails with the insufficient-stake error, not already-exists, and with a
fresh identity, a sufficient stake, but a payment addressed elsewhere the
call fails although the claim's iff says it succeeds. -/
theorem propose_outcome_counterexample :
    (sProposed.oracle_events ⟨7, 1⟩).isSome = true ∧
    (propose_outcome ctxD 7 1 true ⟨0, 100⟩ sProposed).2 =
      Except.error Err.insufficientStake ∧
    Err.insufficientStake ≠ Err.alreadyExists ∧
    sProposed.oracle_events ⟨9, 9⟩ = none ∧
    (propose_outcome ctxD 9 9 true ⟨10000000, 55⟩ sProposed).2 =
      Except.error Err.wrongReceiver := by
  refine ⟨rfl, rfl, by decide, rfl, rfl⟩

/-- Claim C4 (counterexample): a reachable resolved event funded with
5,000 / 10,000 / 6,000 ALGO stakes has an eligible proposer (stake record
5,000 ALGO > 0) whose uint64 reward product 5,000 ALGO * 10,000 ALGO
reaches 2^64, so `claim_rewards` aborts with the arithmetic error and
changes nothing instead of paying `S + floor(S * L / W)` as claimed. -/
theorem claim_rewards_overflow_counterexample :
    (propose_outcome ctxP 7 2 true ⟨5000000000, 100⟩ initialState).2 =
      Except.ok true ∧
    (raise_dispute ctxD 7 2 false ⟨10000000000, 100⟩ sProposedC).2 =
      Except.ok 1 ∧
    (vote (ctxV 86401) 7 2 true ⟨6000000000, 100⟩ sDisputedC).2 =
      Except.ok true ∧
    (resolve_event { sender := 9, now := 300000, appAddr := 100 } 7 2
      sVoteC).2 = Except.ok true ∧
    sResolvedC.oracle_events ⟨7, 2⟩ = some evRC ∧
    evRC.resolved = true ∧
    sResolvedC.user_stakes ⟨7, 2, 1⟩ = some 5000000000 ∧
    sResolvedC.votes ⟨7, 2, 1⟩ = none ∧
    evRC.proposer_address = 1 ∧
    evRC.initial_proposal = evRC.final_outcome ∧
    2 ^ 64 ≤ 5000000000 * 10000000000 ∧
    claim_rewards { sender := 1, now := 300001, appAddr := 100 } 7 2
      sResolvedC = (sResolvedC, Except.error Err.overflow) := by
  refine ⟨rfl, rfl, rfl, rfl, rfl, rfl, rfl, rfl, rfl, rfl, by decide, rfl⟩

/-- Claim C5 (counterexample): in the same overflow scenario the proposer
passes the claim's eligibility test (no Vote record, is the proposer, and
the initial proposal matches the final outcome), yet `claim_rewards` does
not succeed: it aborts with the arithmetic error — which is not the
not-winner error — refuting the claimed iff. -/
theorem claim_rewards_eligibility_counterexample :
    sResolvedC.oracle_events ⟨7, 2⟩ = some evRC ∧
    evRC.resolved = true ∧
    sResolvedC.user_stakes ⟨7, 2, 1⟩ = some 5000000000 ∧
    sResolvedC.votes ⟨7, 2, 1⟩ = none ∧
    ((1 : Nat) = evRC.proposer_address ∧
      evRC.initial_proposal = evRC.final_outcome) ∧
    (claim_rewards { sender := 1, now := 300001, appAddr := 100 } 7 2
      sResolvedC).2 = Except.error Err.overflow ∧
    Err.overflow ≠ Err.notWinner := by
  refine ⟨rfl, rfl, rfl, rfl, ⟨rfl, rfl⟩, rfl, by decide⟩

/-- The event record of `sProposed` at key (7, 1). -/
def evP : OracleEventStruct :=
  ⟨7, 1, true, 1, 10000000, 86400, 259200, 10000000, 0, false, false, 0⟩

/-- The event record of `sVoteA1` at key (7, 1). -/
def evA1 : OracleEventStruct :=
  ⟨7, 1, true, 1, 10000000, 86400, 259200, 15000000, 20000000, false, false, 1⟩

/-- Voter 3's record in `sVoteA1`. -/
def vA1 : VoteStruct := ⟨7, 1, 3, true, 5000000, 86401⟩

/-- Scenario A resolved after the voting deadline: no = 23 ALGO beats
yes = 10 ALGO, so the outcome is false. -/
def sResolvedA : State :=
  (resolve_event { sender := 9, now := 300000, appAddr := 100 } 7 1 sVoteA2).1

/-- The event record of `sResolvedA` at key (7, 1). -/
def evRA : OracleEventStruct :=
  ⟨7, 1, true, 1, 10000000, 86400, 259200, 10000000, 23000000, true, false, 1⟩

theorem resolve_event_cases_witness :
    resolve_event ctxD 7 1 sProposed =
      ({ sProposed with oracle_events := (upd sProposed.oracle_events ⟨7, 1⟩
          ({ evP with resolved := true
                      final_outcome := evP.initial_proposal })) },
       Except.ok true) :=
  (resolve_event_cases ctxD 7 1 sProposed evP rfl rfl).1 rfl

theorem resolve_event_frame_witness :
    ∃ ev b, sProposed.oracle_events ⟨7, 1⟩ = some ev ∧
      (resolve_event ctxD 7 1 sProposed).1 =
        { sProposed with oracle_events := (upd sProposed.oracle_events ⟨7, 1⟩
            ({ ev with resolved := true, final_outcome := b })) } := by
  obtain ⟨ev, b, h1, h2, _⟩ := resolve_event_frame ctxD 7 1 sProposed rfl
  exact ⟨ev, b, h1, h2⟩

theorem resolved_is_terminal_witness :
    resolve_event ctxD 7 1 sResolvedA =
      (sResolvedA, Except.error Err.alreadyResolved) ∧
    resolve_event_expedited ctxD 7 1 true sResolvedA =
      (sResolvedA, Except.error Err.alreadyResolved) ∧
    (∃ ev2, ((run ctxD (Call.claim 7 1) sResolvedA).1).oracle_events ⟨7, 1⟩ =
        some ev2 ∧ ev2.resolved = true ∧
        ev2.final_outcome = evRA.final_outcome) :=
  ⟨resolved_is_terminal.1 ctxD 7 1 sResolvedA evRA rfl rfl,
   resolved_is_terminal.2.1 ctxD 7 1 true sResolvedA evRA rfl rfl,
   resolved_is_terminal.2.2 ctxD (Call.claim 7 1) sResolvedA ⟨7, 1⟩ evRA rfl rfl⟩

theorem operations_atomic_witness :
    (run ctxD (Call.resolve 9 9) initialState).1 = initialState :=
  operations_atomic ctxD (Call.resolve 9 9) initialState Err.eventNotFound rfl

theorem claim_rewards_reward_witness :
    (claim_rewards { sender := 3, now := 300001, appAddr := 100 } 7 1
      sResolvedA).2 = Except.ok 11478260 := by
  have h := claim_rewards_reward { sender := 3, now := 300001, appAddr := 100 }
    7 1 sResolvedA evRA 8000000 23000000 10000000 11478260 rfl rfl rfl
    (by decide) rfl rfl rfl (by decide) (by decide) (by decide)
  rw [h.2.1]

theorem claim_rewards_eligibility_witness :
    claim_rewards { sender := 2, now := 300001, appAddr := 100 } 7 1
      sResolvedA = (sResolvedA, Except.error Err.notWinner) :=
  (claim_rewards_eligibility { sender := 2, now := 300001, appAddr := 100 }
    7 1 sResolvedA evRA 20000000 rfl rfl rfl (by decide)).2.2.1 rfl

theorem vote_merge_witness :
    (vote (ctxV 86402) 7 1 false ⟨3000000, 100⟩ sVoteA1).2 = Except.ok true ∧
    ((vote (ctxV 86402) 7 1 false ⟨3000000, 100⟩ sVoteA1).1).votes ⟨7, 1, 3⟩ =
      some { vA1 with vote_outcome := false
                      stake_amount := 8000000
                      vote_timestamp := 86402 } := by
  have h := vote_merge (ctxV 86402) 7 1 false ⟨3000000, 100⟩ sVoteA1 evA1 vA1
    rfl (by decide) (by decide) rfl (by decide) (by decide) rfl rfl (by decide)
  exact ⟨h.1, h.2.1⟩

theorem propose_outcome_cases_witness :
    propose_outcome ctxD 7 1 true ⟨0, 100⟩ sProposed =
      (sProposed, Except.error Err.insufficientStake) ∧
    (∃ ev2, propose_outcome ctxP 7 1 true ⟨10000000, 100⟩ initialState =
        ({ initialState with
            oracle_events := (upd initialState.oracle_events ⟨7, 1⟩ ev2)
            user_stakes := (upd initialState.user_stakes ⟨7, 1, 1⟩ 10000000) },
         Except.ok true) ∧
      ev2.initial_proposal = true ∧
      ev2.proposer_address = 1 ∧
      ev2.proposal_stake = 10000000 ∧
      ev2.dispute_deadline = 86400 ∧
      ev2.voting_deadline = 259200 ∧
      ev2.dispute_deadline < ev2.voting_deadline ∧
      ev2.total_stake_yes = (if true then 10000000 else 0) ∧
      ev2.total_stake_no = (if true then 0 else 10000000) ∧
      ev2.resolved = false ∧
      ev2.dispute_count = 0) := by
  constructor
  · exact (propose_outcome_cases ctxD 7 1 true ⟨0, 100⟩ sProposed).1 (by decide)
  · exact (propose_outcome_cases ctxP 7 1 true
      ⟨10000000, 100⟩ initialState).2.2.2 (by decide) rfl rfl

end EventOracle
